import Mathlib

/-!
Shallow embedding of the core of the vrad / ohba_models repository
(simulation engine `vrad/simulation/_base.py`, data container
`vrad/data/_base.py`, and the M-DyNeMo observation model
`ohba_models/models/mdynemo_obs.py`), together with theorems checking the
repository's specification against it.

Conventions:
- numpy arrays of reals are embedded as functions out of `Fin`;
  matrices as `Matrix (Fin n) (Fin n) ℝ`.
- Python exceptions are embedded as `Except String`; the error string is
  prefixed with the Python exception class (for example "ValueError: ...").
- random draws are passed in as explicit oracle arguments, since the
  embedding is deterministic.
-/

noncomputable section

namespace VradModel

open Matrix

/-! ### numpy shape semantics used by `Simulation.simulate_data`

`simulate_data` (_base.py lines 154-191) calls
`self._rng.normal((self.n_states, self.n_channels))`: the tuple is passed
positionally as the `loc` (mean) argument of `Generator.normal`, not as
`size`.  With `size` omitted, the result has the broadcast shape of `loc`
and `scale`, hence shape `(2,)` here.  We embed just enough of numpy's
shape algebra (general broadcasting, axis-0 summation, and the mean/cov
length check of `multivariate_normal`) to evaluate the shapes that
`simulate_data` produces. -/

/-- numpy pairwise dimension broadcasting: equal dimensions broadcast to
themselves, a dimension of 1 stretches to the other. -/
def broadcastDim (a b : ℕ) : Option ℕ :=
  if a = b then some a
  else if a = 1 then some b
  else if b = 1 then some a
  else none

/-- Broadcast two shapes given with their trailing axes first
(numpy aligns shapes from the right; a missing axis behaves like the
other operand's axis). -/
def broadcastRev : List ℕ → List ℕ → Option (List ℕ)
  | [], t => some t
  | s, [] => some s
  | a :: s, b :: t =>
    match broadcastDim a b, broadcastRev s t with
    | some d, some r => some (d :: r)
    | _, _ => none

/-- numpy broadcasting of two shapes (leading axis first). -/
def broadcastShape (s t : List ℕ) : Option (List ℕ) :=
  (broadcastRev s.reverse t.reverse).map List.reverse

/-- Shape of `mus_sim` in `simulate_data` (_base.py lines 163-166).
With `sim_varying_means=True` the code runs
`rng.normal((n_states, n_channels))`: the tuple is the `loc` argument, an
array of shape `(2,)`, and since `size` is omitted the draw has shape
`(2,)`.  With `sim_varying_means=False` it is
`np.zeros((n_states, n_channels))`, of shape `(n_states, n_channels)`. -/
def musSimShape (svm : Bool) (K C : ℕ) : List ℕ :=
  if svm then [2] else [K, C]

/-- Shape-level evaluation of `Simulation.simulate_data`
(_base.py lines 154-191) for a fixed unique row `alpha` of the state time
course:
`mu = np.sum(mus_sim * alpha[:, np.newaxis], axis=0)` multiplies
`mus_sim` with an `(n_states, 1)` array by broadcasting and drops axis 0;
`rng.multivariate_normal(mu, sigma, ...)` requires `len(mu)` to equal the
dimension `n_channels` of `sigma` and raises `ValueError` otherwise.  On
success the function returns a float32 array of shape
`(n_samples, n_channels)`. -/
def simulateDataShape (svm : Bool) (T K C : ℕ) : Except String (List ℕ) :=
  match broadcastShape (musSimShape svm K C) [K, 1] with
  | none => Except.error ("ValueError: operands could not be broadcast together")
  | some prodShape =>
    let muShape := prodShape.drop 1
    if muShape = [C] then Except.ok [T, C]
    else Except.error ("ValueError: mean and cov must have same length")

/-! ### `vrad.data._base.Data` (data container) -/

/-- The `subjects` argument accepted by `Data.__init__`, `Data.check` and
`Data.add`: a single filename, a list of filenames, or a raw numpy array
(embedded by its shape, one entry per dimension). -/
inductive SubjectsArg where
  | ofString : String → SubjectsArg
  | ofList : List String → SubjectsArg
  | ofArray : List ℕ → SubjectsArg
deriving DecidableEq

/-- `Data.check` (_base.py lines 45-62): a single string is wrapped in a
list; for a numpy array the code tests `subjects.ndim != 2 or
subjects.ndim != 3` and raises `ValueError` when the test is true, and
otherwise promotes a 2D array to 3D. -/
def dataCheck : SubjectsArg → Except String SubjectsArg
  | SubjectsArg.ofString s => Except.ok (SubjectsArg.ofList [s])
  | SubjectsArg.ofList l => Except.ok (SubjectsArg.ofList l)
  | SubjectsArg.ofArray shape =>
    if shape.length ≠ 2 ∨ shape.length ≠ 3 then
      Except.error
        ("ValueError: A 2D (single subject) or 3D (multiple subject) array must be passed.")
    else if shape.length = 2 then Except.ok (SubjectsArg.ofArray (1 :: shape))
    else Except.ok (SubjectsArg.ofArray shape)

/-- Number of subjects delivered by a checked `subjects` value
(`len(subjects)`: list length, or leading dimension of an array). -/
def subjectsLen : SubjectsArg → ℕ
  | SubjectsArg.ofString _ => 1
  | SubjectsArg.ofList l => l.length
  | SubjectsArg.ofArray shape => shape.headD 0

/-- State of a `Data` object.  Subjects are embedded by their integer ids
(`Subject` itself lives in `vrad/data/subject.py`, outside the embedded
sources; only the list structure and ids are needed here). -/
structure DataState where
  n_subjects : ℕ
  subjects : List ℕ
  prepared : Bool
deriving DecidableEq

/-- `Data.__init__` (_base.py lines 19-39): validates the subjects via
`check`, stores `n_subjects = len(subjects)`, builds one `Subject` per
entry with `_id = i + 1`, and initialises `prepared = False`. -/
def dataInit (subjects : SubjectsArg) : Except String DataState :=
  match dataCheck subjects with
  | Except.error e => Except.error e
  | Except.ok checked =>
    let n := subjectsLen checked
    Except.ok ⟨n, (List.range n).map (fun i => i + 1), false⟩

/-- `Data.add` (_base.py lines 64-86): validates the new subjects via
`check`, increments `n_subjects` by the number of new subjects first, and
then appends new subjects with ids `self.n_subjects + i + 1` computed
from the already-updated total. -/
def dataAdd (st : DataState) (newSubjects : SubjectsArg) : Except String DataState :=
  match dataCheck newSubjects with
  | Except.error e => Except.error e
  | Except.ok checked =>
    let nNew := subjectsLen checked
    let total := st.n_subjects + nNew
    Except.ok ⟨total, st.subjects ++ (List.range nNew).map (fun i => total + i + 1), st.prepared⟩

/-- The `ids` argument of `Data.prepare`. -/
inductive IdsArg where
  | ofInt : ℤ → IdsArg
  | ofList : List ℤ → IdsArg
  | ofString : String → IdsArg
deriving DecidableEq

/-- Whether `Data.prepare`'s `ids`-normalisation accepts the argument
(any int or list is accepted; a string only if it is "all"). -/
def idsKnown : IdsArg → Bool
  | IdsArg.ofString s => s = "all"
  | _ => true

/-- `Data.prepare` (_base.py lines 95-121).  The `ids` argument is
normalised first: an int is wrapped in a list, the string "all" expands
to `range(1, n_subjects + 1)`, and any other string raises `ValueError`.
Only then is the `prepared` flag consulted: if already prepared, a
warning is logged and nothing is changed; otherwise the subjects are
replaced by `prepare(subjects, ids, ...)` and the flag is set.  The
actual preparation lives in `vrad/data/manipulation.py`, outside the
embedded sources, and is abstracted as the argument `prep`; the returned
`Bool` records whether the already-prepared warning was logged. -/
def dataPrepare (prep : List ℕ → List ℤ → List ℕ) (st : DataState) (ids : IdsArg) :
    Except String (DataState × Bool) :=
  let normalised : Except String (List ℤ) :=
    match ids with
    | IdsArg.ofInt i => Except.ok [i]
    | IdsArg.ofList l => Except.ok l
    | IdsArg.ofString s =>
      if s = "all" then Except.ok ((List.range st.n_subjects).map (fun i => (i : ℤ) + 1))
      else Except.error ("ValueError: ids=" ++ s ++ " unknown in data preparation.")
  match normalised with
  | Except.error e => Except.error e
  | Except.ok idl =>
    if st.prepared then Except.ok (st, true)
    else Except.ok (⟨st.n_subjects, prep st.subjects idl, true⟩, false)

/-! ### `vrad.simulation._base.Simulation`: covariance synthesis

`create_covariances` (_base.py lines 115-152) builds a weight matrix per
state — a standard-normal draw per entry when
`random_covariance_weights=True`, and otherwise a zero tensor whose
cubic leading sub-block gets ones on its space diagonal via
`np.fill_diagonal` — then forms `W @ W.T + identity_factor * I` and
divides each matrix by its trace. -/

/-- One state's unnormalised covariance:
`tilde_cov_weights @ tilde_cov_weights.T + identity_factor * eye`
(_base.py lines 143-148). -/
def covFromWeights (C : ℕ) (W : Matrix (Fin C) (Fin C) ℝ) (idf : ℝ) :
    Matrix (Fin C) (Fin C) ℝ :=
  W * Wᵀ + idf • (1 : Matrix (Fin C) (Fin C) ℝ)

/-- `create_covariances` after the weight tensor has been produced
(_base.py lines 143-152): normalise each state's matrix by its trace.
The weight tensor `W` is an explicit argument: the random draw of the
`random_covariance_weights=True` branch is an oracle, and the structured
branch passes `structuredWeights`. -/
def createCovariances (K C : ℕ) (W : Fin K → Matrix (Fin C) (Fin C) ℝ) (idf : ℝ) :
    Fin K → Matrix (Fin C) (Fin C) ℝ :=
  fun k => (covFromWeights C (W k) idf).trace⁻¹ • covFromWeights C (W k) idf

/-- The weight tensor of the structured branch
(`random_covariance_weights=False`, _base.py lines 134-141):
`np.fill_diagonal` on the cubic view
`tilde_cov_weights[:n_states, :n_states, :n_states]` writes ones at the
positions `[k, k, k]`, so state `k`'s weight matrix has a single 1 at
entry `(k, k)` and zeros elsewhere. -/
def structuredWeights (K C : ℕ) : Fin K → Matrix (Fin C) (Fin C) ℝ :=
  fun k => Matrix.of (fun i j => if (i : ℕ) = (k : ℕ) ∧ (j : ℕ) = (k : ℕ) then 1 else 0)

/-- The structured branch of `create_covariances` including the
`np.fill_diagonal` call (_base.py lines 134-141).  The view
`tilde_cov_weights[:n_states, :n_states, :n_states]` has shape
`(n_states, min(n_states, n_channels), min(n_states, n_channels))`, and
`np.fill_diagonal` raises `ValueError` on an array of rank above 2 whose
dimensions are not all equal; the view is cubic exactly when
`n_states ≤ n_channels`. -/
def createCovariancesStructured (K C : ℕ) (idf : ℝ) :
    Except String (Fin K → Matrix (Fin C) (Fin C) ℝ) :=
  if K ≤ C then Except.ok (createCovariances K C (structuredWeights K C) idf)
  else Except.error ("ValueError: All dimensions of input must be of equal length")

/-! ### `Simulation.__init__` and Python attribute lookup

`Simulation.__getattr__` (_base.py lines 82-87) is Python's fallback for
attribute names missing from the instance `__dict__`: it raises
`NameError` for `time_series`, raises `AttributeError` for dunder names,
and otherwise delegates to `getattr(self.time_series, attr)` — which
itself first evaluates `self.time_series` through the same lookup rules. -/

/-- A Python attribute value: `None` or some other object (tagged). -/
inductive PyVal where
  | pyNone : PyVal
  | pyObj : ℕ → PyVal
deriving DecidableEq

/-- Attribute lookup on a `Simulation` instance whose `__dict__` is
`dict`: the instance dictionary is consulted first, and
`Simulation.__getattr__` (_base.py lines 82-87) only runs on a miss.
Delegation of a found `time_series` value's own attributes to numpy is
outside the embedded sources and is abstracted as `delegate`. -/
def simulationGetattr (delegate : PyVal → String → Except String PyVal)
    (dict : List (String × PyVal)) (attr : String) : Except String PyVal :=
  match dict.lookup attr with
  | some v => Except.ok v
  | none =>
    if attr = "time_series" then
      Except.error ("NameError: time_series has not yet been created.")
    else if attr.take 2 = "__" then
      Except.error ("AttributeError: No attribute called " ++ attr ++ ".")
    else
      match dict.lookup "time_series" with
      | none => Except.error ("NameError: time_series has not yet been created.")
      | some v => delegate v attr

/-- The instance `__dict__` at the moment `create_covariances` runs
inside `__init__` (_base.py lines 53-62): the first six parameters and
`state_time_course` have been assigned; `time_series` and `_rng` have
not (they are assigned on lines 64 and 67, after `create_covariances`
returns). -/
def midInitDict : List (String × PyVal) :=
  [("n_samples", PyVal.pyObj 0), ("n_channels", PyVal.pyObj 1),
   ("n_states", PyVal.pyObj 2), ("sim_varying_means", PyVal.pyObj 3),
   ("random_covariance_weights", PyVal.pyObj 4),
   ("observation_error", PyVal.pyObj 5), ("state_time_course", PyVal.pyNone)]

/-- The instance `__dict__` after `__init__` has completed with
`simulate=False`: every attribute of lines 53-67 is present;
`state_time_course` and `time_series` hold Python `None`. -/
def postInitDict : List (String × PyVal) :=
  midInitDict ++
  [("covariances", PyVal.pyObj 6), ("time_series", PyVal.pyNone),
   ("_rng", PyVal.pyObj 7)]

/-- A `Simulation` object's numeric state (the attributes of
`_base.py` lines 53-67 that carry data; the three integer sizes are type
indices).  `means` and `standard_deviations` only come into existence
when `standardize` assigns them. -/
structure Simulation (T K C : ℕ) where
  sim_varying_means : Bool
  random_covariance_weights : Bool
  observation_error : ℝ
  state_time_course : Option (Fin T → Fin K → ℝ)
  covariances : Fin K → Matrix (Fin C) (Fin C) ℝ
  time_series : Option (Fin T → Fin C → ℝ)
  means : Option (Fin C → ℝ)
  standard_deviations : Option (Fin C → ℝ)

/-- `Simulation.__init__` with `covariances=None` and `simulate=False`
(_base.py lines 40-70), following the assignment order of the source.
When `create_covariances` takes the `random_covariance_weights=True`
branch it evaluates `self._rng` (line 131); `_rng` is missing from the
instance dictionary at that point (`midInitDict`), so the access goes
through `simulationGetattr`.  `randomWeights` is the oracle for the draw
that would happen if `_rng` were available. -/
def simulationInit (T K C : ℕ) (svm : Bool) (obsErr : ℝ) (rcw : Bool)
    (randomWeights : Fin K → Matrix (Fin C) (Fin C) ℝ)
    (delegate : PyVal → String → Except String PyVal) :
    Except String (Simulation T K C) :=
  let covsE : Except String (Fin K → Matrix (Fin C) (Fin C) ℝ) :=
    if rcw then
      match simulationGetattr delegate midInitDict "_rng" with
      | Except.error e => Except.error e
      | Except.ok _ => Except.ok (createCovariances K C randomWeights (1 / 10000))
    else createCovariancesStructured K C (1 / 10000)
  match covsE with
  | Except.error e => Except.error e
  | Except.ok cv =>
    Except.ok ⟨svm, rcw, obsErr, none, cv, none, none, none⟩

/-! ### `Simulation.standardize` -/

/-- Per-channel sample mean over the time axis (`np.mean(ts, axis=0)`). -/
def sampleMean {T C : ℕ} (ts : Fin T → Fin C → ℝ) (c : Fin C) : ℝ :=
  (∑ t, ts t c) / T

/-- Per-channel sample variance with denominator `T`
(numpy's default `ddof=0`). -/
def sampleVariance {T C : ℕ} (ts : Fin T → Fin C → ℝ) (c : Fin C) : ℝ :=
  (∑ t, (ts t c - sampleMean ts c) ^ 2) / T

/-- Per-channel sample standard deviation (`np.std(ts, axis=0)`). -/
def sampleStd {T C : ℕ} (ts : Fin T → Fin C → ℝ) (c : Fin C) : ℝ :=
  Real.sqrt (sampleVariance ts c)

/-- `Simulation.standardize` (_base.py lines 193-209): store the
per-channel means and standard deviations, z-transform the time series
in place, and divide the covariances elementwise by the outer product of
the standard deviations.  The method reads `self.time_series`; when the
simulation has not produced one the numpy reductions fail, embedded as
`none`.  The source keeps no flag recording that standardisation already
happened. -/
def standardize {T K C : ℕ} (s : Simulation T K C) : Option (Simulation T K C) :=
  match s.time_series with
  | none => none
  | some ts =>
    some { s with
      time_series := some (fun t c => (ts t c - sampleMean ts c) / sampleStd ts c)
      covariances := fun k =>
        Matrix.of (fun i j => s.covariances k i j / (sampleStd ts i * sampleStd ts j))
      means := some (fun c => sampleMean ts c)
      standard_deviations := some (fun c => sampleStd ts c) }

/-- A concrete simulated `Simulation`: two samples, one channel, one
state, time series `[0, 2]`. -/
def exTs : Fin 2 → Fin 1 → ℝ :=
  fun t _ => if t = 0 then 0 else 2

/-- A concrete `Simulation` holding `exTs` and unit covariance. -/
def exSim : Simulation 2 1 1 :=
  ⟨false, false, 1 / 5, none, fun _ => 1, some exTs, none, none⟩

/-! ### `ohba_models.models.mdynemo_obs._model_structure`: covariance recombination -/

/-- Modelled from the spec: the `MatMulLayer` applied as
`C = matmul_layer([G, F, G])` in `_model_structure`
(mdynemo_obs.py lines 168, 179) lives in
`ohba_models/inference/layers.py`, which is not among the embedded
sources; per the spec it computes the per-timestep congruence transform
`C[t] = G[t] · F[t] · G[t]ᵀ`. -/
def combine {T C : ℕ} (G F : Fin T → Matrix (Fin C) (Fin C) ℝ) (t : Fin T) :
    Matrix (Fin C) (Fin C) ℝ :=
  G t * F t * (G t)ᵀ

/-! ### `ohba_models.models.mdynemo_obs.Config` -/

/-- The observation-model fields of the M-DyNeMo `Config` dataclass
(mdynemo_obs.py lines 61-69).  A Python `None` default is embedded as
`Option.none`; the `initial_*` arrays are embedded only by their
presence, which is all the validator inspects. -/
structure MDynemoObsConfig where
  multiple_dynamics : Bool := true
  learn_means : Option Bool := none
  learn_stds : Option Bool := none
  learn_fcs : Option Bool := none
deriving DecidableEq

/-- `Config.validate_observation_model_parameters`
(mdynemo_obs.py lines 76-82): raises `ValueError` when any of
`learn_means`, `learn_stds`, `learn_fcs` was left `None`. -/
def validateObservationModelParameters (c : MDynemoObsConfig) : Except String Unit :=
  if c.learn_means = none ∨ c.learn_stds = none ∨ c.learn_fcs = none then
    Except.error ("ValueError: learn_means, learn_stds and learn_fcs must be passed.")
  else Except.ok ()

/-- `Config.__post_init__` (mdynemo_obs.py lines 71-74): runs the
observation-model validator first, then `validate_dimension_parameters`
and `validate_training_parameters`.  The latter two live in
`ohba_models/models/mod_base.py`, outside the embedded sources, and are
abstracted as the arguments `vdim` and `vtrain`. -/
def configPostInit (c : MDynemoObsConfig) (vdim vtrain : Except String Unit) :
    Except String Unit :=
  match validateObservationModelParameters c with
  | Except.error e => Except.error e
  | Except.ok _ =>
    match vdim with
    | Except.error e => Except.error e
    | Except.ok _ => vtrain

/-! ## Theorems -/

/-! ### Helper lemmas -/

lemma trace_mul_transpose_self_nonneg {C : ℕ} (W : Matrix (Fin C) (Fin C) ℝ) :
    0 ≤ (W * Wᵀ).trace := by
  rw [Matrix.trace]
  refine Finset.sum_nonneg (fun i _ => ?_)
  rw [Matrix.diag_apply, Matrix.mul_apply]
  refine Finset.sum_nonneg (fun j _ => ?_)
  rw [Matrix.transpose_apply]
  exact mul_self_nonneg _

lemma posSemidef_mul_transpose_self {C : ℕ} (W : Matrix (Fin C) (Fin C) ℝ) :
    (W * Wᵀ).PosSemidef := by
  have h := Matrix.posSemidef_self_mul_conjTranspose W
  rwa [Matrix.conjTranspose_eq_transpose_of_trivial] at h

lemma posDef_smul_of_pos {C : ℕ} {A : Matrix (Fin C) (Fin C) ℝ} (hA : A.PosDef)
    {c : ℝ} (hc : 0 < c) : (c • A).PosDef := by
  refine ⟨?_, fun x hx => ?_⟩
  · have h := hA.isHermitian
    rw [Matrix.IsHermitian] at h ⊢
    rw [Matrix.conjTranspose_smul, h, star_trivial]
  · rw [Matrix.smul_mulVec_assoc, Matrix.dotProduct_smul, smul_eq_mul]
    exact mul_pos hc (hA.2 x hx)

lemma covFromWeights_posDef {C : ℕ} (W : Matrix (Fin C) (Fin C) ℝ) {idf : ℝ}
    (hidf : 0 < idf) : (covFromWeights C W idf).PosDef :=
  Matrix.PosDef.posSemidef_add (posSemidef_mul_transpose_self W)
    (posDef_smul_of_pos Matrix.PosDef.one hidf)

lemma covFromWeights_trace_pos {C : ℕ} (hC : 0 < C) (W : Matrix (Fin C) (Fin C) ℝ)
    {idf : ℝ} (hidf : 0 < idf) : 0 < (covFromWeights C W idf).trace := by
  unfold covFromWeights
  rw [Matrix.trace_add, Matrix.trace_smul, Matrix.trace_one, smul_eq_mul,
    Fintype.card_fin]
  have h1 := trace_mul_transpose_self_nonneg W
  have h2 : (0 : ℝ) < idf * C := mul_pos hidf (Nat.cast_pos.mpr hC)
  linarith

lemma sampleVariance_nonneg {T C : ℕ} (ts : Fin T → Fin C → ℝ) (c : Fin C) :
    0 ≤ sampleVariance ts c := by
  unfold sampleVariance
  positivity

lemma standardized_sampleMean {T C : ℕ} (hT : 0 < T) (ts : Fin T → Fin C → ℝ)
    (c : Fin C) :
    sampleMean (fun t c' => (ts t c' - sampleMean ts c') / sampleStd ts c') c = 0 := by
  have hT' : (T : ℝ) ≠ 0 := Nat.cast_ne_zero.mpr hT.ne'
  have hsum : ∑ t, (ts t c - sampleMean ts c) = 0 := by
    rw [Finset.sum_sub_distrib, Finset.sum_const, Finset.card_univ, Fintype.card_fin,
      nsmul_eq_mul, sampleMean]
    field_simp
  have hrfl : sampleMean (fun t c' => (ts t c' - sampleMean ts c') / sampleStd ts c') c
      = (∑ t, (ts t c - sampleMean ts c) / sampleStd ts c) / T := rfl
  rw [hrfl, ← Finset.sum_div, hsum, zero_div, zero_div]

lemma standardized_sampleStd {T C : ℕ} (hT : 0 < T) (ts : Fin T → Fin C → ℝ)
    (c : Fin C) (hσ : sampleStd ts c ≠ 0) :
    sampleStd (fun t c' => (ts t c' - sampleMean ts c') / sampleStd ts c') c = 1 := by
  have hT' : (T : ℝ) ≠ 0 := Nat.cast_ne_zero.mpr hT.ne'
  have hv0 : 0 ≤ sampleVariance ts c := sampleVariance_nonneg ts c
  have hvne : sampleVariance ts c ≠ 0 := by
    intro h0
    apply hσ
    unfold sampleStd
    rw [h0, Real.sqrt_zero]
  have hmean := standardized_sampleMean hT ts c
  have hvar : sampleVariance
      (fun t c' => (ts t c' - sampleMean ts c') / sampleStd ts c') c = 1 := by
    have hrfl : sampleVariance
        (fun t c' => (ts t c' - sampleMean ts c') / sampleStd ts c') c
        = (∑ t, ((ts t c - sampleMean ts c) / sampleStd ts c
            - sampleMean (fun t c' => (ts t c' - sampleMean ts c') / sampleStd ts c') c)
              ^ 2) / T := rfl
    have hstep : ∀ t : Fin T, ((ts t c - sampleMean ts c) / sampleStd ts c - 0) ^ 2
        = (ts t c - sampleMean ts c) ^ 2 / sampleVariance ts c := by
      intro t
      rw [sub_zero, div_pow]
      congr 1
      unfold sampleStd
      exact Real.sq_sqrt hv0
    rw [hrfl, hmean]
    rw [Finset.sum_congr rfl (fun t _ => hstep t), ← Finset.sum_div]
    have hsum : ∑ t, (ts t c - sampleMean ts c) ^ 2 = sampleVariance ts c * T := by
      unfold sampleVariance
      field_simp
    rw [hsum]
    field_simp
  have hrfl2 : sampleStd (fun t c' => (ts t c' - sampleMean ts c') / sampleStd ts c') c
      = Real.sqrt (sampleVariance
          (fun t c' => (ts t c' - sampleMean ts c') / sampleStd ts c') c) := rfl
  rw [hrfl2, hvar, Real.sqrt_one]

lemma exTs_sampleMean (c : Fin 1) : sampleMean exTs c = 1 := by
  have h : ∑ t, exTs t c = 2 := by
    rw [Fin.sum_univ_two]
    simp [exTs]
  unfold sampleMean
  rw [h]
  norm_num

lemma exTs_sampleVariance (c : Fin 1) : sampleVariance exTs c = 1 := by
  unfold sampleVariance
  rw [Fin.sum_univ_two, exTs_sampleMean]
  norm_num [exTs]

lemma exTs_sampleStd (c : Fin 1) : sampleStd exTs c = 1 := by
  unfold sampleStd
  rw [exTs_sampleVariance, Real.sqrt_one]

/-! ### Claim theorems (continued) -/

/-- Claim C2 (amended): for positive `n_channels` and positive
`identity_factor`, each matrix produced by `create_covariances` —
`W·Wᵗ + identity_factor·I` divided by its trace — is symmetric, strictly
positive definite, and has unit trace; the weight tensor `W` is
arbitrary, which covers the random branch (any draw) and, via
`structuredWeights`, the structured branch whenever
`n_states ≤ n_channels` (the structured branch with
`n_states > n_channels` raises instead, see the counterexample). -/
theorem create_covariances_psd_unit_trace (K C : ℕ) (hC : 0 < C)
    (W : Fin K → Matrix (Fin C) (Fin C) ℝ) (idf : ℝ) (hidf : 0 < idf) (k : Fin K) :
    (createCovariances K C W idf k).PosDef ∧
    (createCovariances K C W idf k)ᵀ = createCovariances K C W idf k ∧
    (createCovariances K C W idf k).trace = 1 := by
  have htr := covFromWeights_trace_pos hC (W k) hidf
  have hpd := covFromWeights_posDef (W k) hidf
  have hinv : 0 < (covFromWeights C (W k) idf).trace⁻¹ := inv_pos.mpr htr
  unfold createCovariances
  refine ⟨posDef_smul_of_pos hpd hinv, ?_, ?_⟩
  · have h := (posDef_smul_of_pos hpd hinv).isHermitian
    rw [Matrix.IsHermitian, Matrix.conjTranspose_eq_transpose_of_trivial] at h
    exact h
  · rw [Matrix.trace_smul, smul_eq_mul, inv_mul_cancel₀ (ne_of_gt htr)]

/-- Witness for the C2 theorem at `n_states=1, n_channels=2`,
`identity_factor=1`, all-ones weights. -/
theorem create_covariances_psd_unit_trace_witness :
    (0 : ℕ) < 2 ∧ (0 : ℝ) < 1 ∧
    ((createCovariances 1 2 (fun _ => 1) 1 0).PosDef ∧
      (createCovariances 1 2 (fun _ => 1) 1 0)ᵀ = createCovariances 1 2 (fun _ => 1) 1 0 ∧
      (createCovariances 1 2 (fun _ => 1) 1 0).trace = 1) :=
  ⟨by decide, by norm_num,
    create_covariances_psd_unit_trace 1 2 (by decide) (fun _ => 1) 1 (by norm_num) 0⟩

/-- Claim C5: at every timestep, if `F[t]` is positive semi-definite
then the recombined covariance `C[t] = G[t]·F[t]·G[t]ᵗ` of the
observation model is positive semi-definite, for arbitrary real `G[t]`
(including singular `G[t]`); symmetry of the congruence transform is
part of `PosSemidef` (it is Hermitian, i.e. symmetric over ℝ). -/
theorem combine_posSemidef {T C : ℕ} (G F : Fin T → Matrix (Fin C) (Fin C) ℝ)
    (t : Fin T) (hF : (F t).PosSemidef) : (combine G F t).PosSemidef := by
  unfold combine
  have h := hF.mul_mul_conjTranspose_same (G t)
  rwa [Matrix.conjTranspose_eq_transpose_of_trivial] at h

/-- Witness for the C5 theorem: identity correlation matrix, zero
(singular) scale matrix. -/
theorem combine_posSemidef_witness :
    (1 : Matrix (Fin 2) (Fin 2) ℝ).PosSemidef ∧
    (combine (fun _ : Fin 1 => (0 : Matrix (Fin 2) (Fin 2) ℝ))
      (fun _ => (1 : Matrix (Fin 2) (Fin 2) ℝ)) 0).PosSemidef :=
  ⟨Matrix.PosSemidef.one, combine_posSemidef _ _ 0 Matrix.PosSemidef.one⟩

/-- Claim C3: a first `standardize()` call on a simulation whose time
series exists (and whose channels have nonzero standard deviation)
z-transforms the stored series so every channel ends with sample mean 0
and sample standard deviation 1 exactly (the real-arithmetic reading of
"within floating tolerance"), replaces each covariance matrix entrywise
by `C_k[i,j] / (std_i * std_j)`, records the means and standard
deviations, and leaves every other field unchanged. -/
theorem standardize_first_call_spec {T K C : ℕ} (s : Simulation T K C)
    (ts : Fin T → Fin C → ℝ) (hts : s.time_series = some ts) (hT : 0 < T)
    (hσ : ∀ c, sampleStd ts c ≠ 0) :
    ∃ s', standardize s = some s' ∧
      (∃ ts', s'.time_series = some ts' ∧ (∀ c, sampleMean ts' c = 0) ∧
        (∀ c, sampleStd ts' c = 1)) ∧
      (∀ k i j, s'.covariances k i j =
        s.covariances k i j / (sampleStd ts i * sampleStd ts j)) ∧
      s'.means = some (fun c => sampleMean ts c) ∧
      s'.standard_deviations = some (fun c => sampleStd ts c) ∧
      s'.state_time_course = s.state_time_course ∧
      s'.observation_error = s.observation_error ∧
      s'.sim_varying_means = s.sim_varying_means ∧
      s'.random_covariance_weights = s.random_covariance_weights := by
  have hstd : standardize s = some { s with
      time_series := some (fun t c => (ts t c - sampleMean ts c) / sampleStd ts c)
      covariances := fun k =>
        Matrix.of (fun i j => s.covariances k i j / (sampleStd ts i * sampleStd ts j))
      means := some (fun c => sampleMean ts c)
      standard_deviations := some (fun c => sampleStd ts c) } := by
    unfold standardize
    rw [hts]
  refine ⟨_, hstd,
    ⟨fun t c => (ts t c - sampleMean ts c) / sampleStd ts c, rfl,
      fun c => standardized_sampleMean hT ts c,
      fun c => standardized_sampleStd hT ts c (hσ c)⟩,
    fun k i j => rfl, rfl, rfl, rfl, rfl, rfl, rfl⟩

/-- Witness for the C3 theorem on the concrete simulation `exSim`
(series `[0, 2]` on one channel: mean 1, standard deviation 1). -/
theorem standardize_first_call_spec_witness :
    exSim.time_series = some exTs ∧ 0 < 2 ∧ (∀ c, sampleStd exTs c ≠ 0) ∧
    (∃ s', standardize exSim = some s' ∧
      (∃ ts', s'.time_series = some ts' ∧ (∀ c, sampleMean ts' c = 0) ∧
        (∀ c, sampleStd ts' c = 1)) ∧
      (∀ k i j, s'.covariances k i j =
        exSim.covariances k i j / (sampleStd exTs i * sampleStd exTs j)) ∧
      s'.means = some (fun c => sampleMean exTs c) ∧
      s'.standard_deviations = some (fun c => sampleStd exTs c) ∧
      s'.state_time_course = exSim.state_time_course ∧
      s'.observation_error = exSim.observation_error ∧
      s'.sim_varying_means = exSim.sim_varying_means ∧
      s'.random_covariance_weights = exSim.random_covariance_weights) :=
  ⟨rfl, by decide, fun c => by rw [exTs_sampleStd]; norm_num,
    standardize_first_call_spec exSim exTs rfl (by decide)
      (fun c => by rw [exTs_sampleStd]; norm_num)⟩

/-- Claim C4 (code-bug evidence): `standardize` keeps no
already-standardized flag, so a second call on an already-standardized
simulation succeeds silently instead of failing; in exact arithmetic the
recomputed means and standard deviations are 0 and 1, so the second call
leaves the time series and the covariances unchanged. -/
theorem standardize_second_call_no_error :
    ∃ s₁ s₂, standardize exSim = some s₁ ∧ standardize s₁ = some s₂ ∧
      s₂.time_series = s₁.time_series ∧ s₂.covariances = s₁.covariances := by
  have hm : ∀ c, sampleMean
      (fun t c' => (exTs t c' - sampleMean exTs c') / sampleStd exTs c') c = 0 :=
    fun c => standardized_sampleMean (by decide) exTs c
  have hs : ∀ c, sampleStd
      (fun t c' => (exTs t c' - sampleMean exTs c') / sampleStd exTs c') c = 1 :=
    fun c => standardized_sampleStd (by decide) exTs c
      (by rw [exTs_sampleStd]; norm_num)
  refine ⟨_, _, rfl, rfl, ?_, ?_⟩
  · show some _ = some _
    congr 1
    funext t c
    rw [hm c, hs c]
    simp
  · funext k
    ext i j
    show (_ : ℝ) / (sampleStd _ i * sampleStd _ j) = _
    rw [hs i, hs j]
    simp

/-- Claim C1 (code-bug evidence): the `sim_varying_means=True` branch of
`simulate_data` passes `(n_states, n_channels)` to `rng.normal` as the
`loc` argument, so `mus_sim` has shape `(2,)` instead of
`(n_states, n_channels)`; consequently the weighted mean `mu` has length
2 and `rng.multivariate_normal(mu, sigma, ...)` raises `ValueError`
whenever `n_channels ≠ 2` — no per-mode means are ever simulated.  With
`sim_varying_means=False` the shapes work out and the output has shape
`(n_samples, n_channels)`. -/
theorem simulate_data_varying_means_shape_error (T K C : ℕ) (hC : C ≠ 2) :
    simulateDataShape true T K C =
      Except.error ("ValueError: mean and cov must have same length") ∧
    simulateDataShape false T K C = Except.ok [T, C] := by
  constructor
  · have h2 : ¬([2] = [C]) := by simp [Ne.symm hC]
    simp [simulateDataShape, broadcastShape, broadcastRev, broadcastDim, musSimShape, h2]
  · simp only [simulateDataShape, broadcastShape, broadcastRev, broadcastDim, musSimShape]
    by_cases hC1 : C = 1 <;> simp [hC1]

/-- Witness for the C1 theorem at `n_samples=100, n_states=3,
n_channels=4`. -/
theorem simulate_data_varying_means_shape_error_witness :
    (4 : ℕ) ≠ 2 ∧
    (simulateDataShape true 100 3 4 =
        Except.error ("ValueError: mean and cov must have same length") ∧
      simulateDataShape false 100 3 4 = Except.ok [100, 4]) :=
  ⟨by decide, simulate_data_varying_means_shape_error 100 3 4 (by decide)⟩

/-- Claim C6 (code-bug evidence): `__init__` assigns
`self.time_series = None` (line 64), so after a construction with
`simulate=False` the attribute is present in the instance dictionary and
requesting it returns Python `None` silently; the `NameError` branch of
`__getattr__` is never reached. -/
theorem time_series_access_returns_none
    (delegate : PyVal → String → Except String PyVal) :
    simulationGetattr delegate postInitDict "time_series" = Except.ok PyVal.pyNone := rfl

/-- Claim C7 counterexample: with `covariances=None` and
`random_covariance_weights=False`, `n_states=3 > n_channels=2`,
construction does not succeed — `np.fill_diagonal` raises `ValueError`
on the non-cubic view — contradicting the claim's clause that the
construction with `random_covariance_weights=False` always succeeds. -/
theorem simulation_init_structured_counterexample :
    simulationInit 5 3 2 false (1 / 5) false (fun _ => 1)
        (fun _ _ => Except.ok PyVal.pyNone) =
      Except.error ("ValueError: All dimensions of input must be of equal length") := rfl

/-- Claim C7 (amended): constructing a `Simulation` with
`covariances=None` and `random_covariance_weights=True` always raises
`NameError: time_series has not yet been created.` — the access to
`self._rng` inside `create_covariances` happens before `_rng` (and
`time_series`) are assigned, and `__getattr__` re-routes it through the
not-yet-set `time_series` — while with
`random_covariance_weights=False` the same construction succeeds
provided `n_states ≤ n_channels`. -/
theorem simulation_init_rng_nameerror (T K C : ℕ) (svm : Bool) (obsErr : ℝ)
    (randomWeights : Fin K → Matrix (Fin C) (Fin C) ℝ)
    (delegate : PyVal → String → Except String PyVal) :
    simulationInit T K C svm obsErr true randomWeights delegate =
      Except.error ("NameError: time_series has not yet been created.") ∧
    (K ≤ C → simulationInit T K C svm obsErr false randomWeights delegate =
      Except.ok ⟨svm, false, obsErr, none,
        createCovariances K C (structuredWeights K C) (1 / 10000), none, none, none⟩) := by
  constructor
  · rfl
  · intro hKC
    simp [simulationInit, createCovariancesStructured, hKC]

/-- Witness for the C7 theorem at `n_states=2 ≤ n_channels=3`. -/
theorem simulation_init_rng_nameerror_witness :
    (2 : ℕ) ≤ 3 ∧
    simulationInit 5 2 3 false (1 / 5) true (fun _ => 1)
        (fun _ _ => Except.ok PyVal.pyNone) =
      Except.error ("NameError: time_series has not yet been created.") ∧
    simulationInit 5 2 3 false (1 / 5) false (fun _ => 1)
        (fun _ _ => Except.ok PyVal.pyNone) =
      Except.ok ⟨false, false, 1 / 5, none,
        createCovariances 2 3 (structuredWeights 2 3) (1 / 10000), none, none, none⟩ :=
  ⟨by decide,
    (simulation_init_rng_nameerror 5 2 3 false (1 / 5) (fun _ => 1)
      (fun _ _ => Except.ok PyVal.pyNone)).1,
    (simulation_init_rng_nameerror 5 2 3 false (1 / 5) (fun _ => 1)
      (fun _ _ => Except.ok PyVal.pyNone)).2 (by decide)⟩

/-- Claim C2 counterexample: for `n_states=3, n_channels=2` the
structured branch (`random_covariance_weights=False`) of
`create_covariances` raises `ValueError` — `np.fill_diagonal` is applied
to a view of shape `(3, 2, 2)` whose dimensions are not all equal — so
no covariance matrices are returned at all. -/
theorem create_covariances_structured_counterexample :
    createCovariancesStructured 3 2 (1 / 10000) =
      Except.error ("ValueError: All dimensions of input must be of equal length") := rfl

/-- Claim C8: constructing an M-DyNeMo observation-model `Config` with
any of `learn_means`, `learn_stds`, `learn_fcs` left `None` raises
`ValueError` in `__post_init__` (the observation-model validator runs
first, before any computation graph exists); when all three are
supplied, construction does not raise on their account — the outcome is
exactly that of the remaining validators. -/
theorem mdynemo_config_validation (c : MDynemoObsConfig)
    (vdim vtrain : Except String Unit) :
    ((c.learn_means = none ∨ c.learn_stds = none ∨ c.learn_fcs = none) →
      configPostInit c vdim vtrain =
        Except.error ("ValueError: learn_means, learn_stds and learn_fcs must be passed.")) ∧
    (c.learn_means ≠ none → c.learn_stds ≠ none → c.learn_fcs ≠ none →
      configPostInit c vdim vtrain =
        match vdim with
        | Except.error e => Except.error e
        | Except.ok _ => vtrain) := by
  constructor
  · intro h
    unfold configPostInit validateObservationModelParameters
    rw [if_pos h]
  · intro h1 h2 h3
    unfold configPostInit validateObservationModelParameters
    rw [if_neg (fun hor => hor.elim h1 (fun hor' => hor'.elim h2 h3))]

/-- Witness for the C8 theorem: a config missing `learn_means` fails
with the validator's message; a fully specified config passes. -/
theorem mdynemo_config_validation_witness :
    configPostInit ⟨true, none, some true, some true⟩ (Except.ok ()) (Except.ok ()) =
      Except.error ("ValueError: learn_means, learn_stds and learn_fcs must be passed.") ∧
    configPostInit ⟨true, some true, some false, some true⟩ (Except.ok ()) (Except.ok ()) =
      Except.ok () :=
  ⟨(mdynemo_config_validation _ _ _).1 (Or.inl rfl), by
    have h := (mdynemo_config_validation ⟨true, some true, some false, some true⟩
      (Except.ok ()) (Except.ok ())).2 (by simp) (by simp) (by simp)
    simpa using h⟩

/-- Claim C9: `Data.check`'s rank test `ndim != 2 or ndim != 3` is true
for every rank, so every raw numpy array — of any shape, including
well-formed 2D and 3D arrays — raises `ValueError`; consequently the
`Data` constructor and `Data.add`, which validate through `check` first,
never accept a raw numpy array. -/
theorem data_check_rejects_all_arrays (shape : List ℕ) (st : DataState) :
    dataCheck (SubjectsArg.ofArray shape) =
      Except.error
        ("ValueError: A 2D (single subject) or 3D (multiple subject) array must be passed.") ∧
    dataInit (SubjectsArg.ofArray shape) =
      Except.error
        ("ValueError: A 2D (single subject) or 3D (multiple subject) array must be passed.") ∧
    dataAdd st (SubjectsArg.ofArray shape) =
      Except.error
        ("ValueError: A 2D (single subject) or 3D (multiple subject) array must be passed.") := by
  have h : shape.length ≠ 2 ∨ shape.length ≠ 3 := by omega
  have hc : dataCheck (SubjectsArg.ofArray shape) =
      Except.error
        ("ValueError: A 2D (single subject) or 3D (multiple subject) array must be passed.") := by
    simp only [dataCheck]
    rw [if_pos h]
  exact ⟨hc, by unfold dataInit; rw [hc], by unfold dataAdd; rw [hc]⟩

/-- Claim C10 counterexample: on an already-prepared `Data` object,
`prepare` with an unknown string for `ids` raises `ValueError` — the
`ids` normalisation runs before the `prepared` flag is consulted — so
"no error is raised" does not hold for every call on a prepared
object. -/
theorem data_prepare_unknown_ids_counterexample :
    (⟨1, [1], true⟩ : DataState).prepared = true ∧
    dataPrepare (fun s _ => s) ⟨1, [1], true⟩ (IdsArg.ofString ("bogus")) =
      Except.error ("ValueError: ids=bogus unknown in data preparation.") :=
  ⟨rfl, rfl⟩

/-- Claim C10 (amended): provided `ids` is an int, a list, or the string
"all", calling `prepare` on an already-prepared `Data` object logs a
warning and is a no-op — the state is returned unchanged and no error is
raised — while on a not-yet-prepared object the subjects are processed
and the `prepared` flag is set, with no warning. -/
theorem data_prepare_gating (prep : List ℕ → List ℤ → List ℕ) (st : DataState)
    (ids : IdsArg) (hv : idsKnown ids = true) :
    (st.prepared = true → dataPrepare prep st ids = Except.ok (st, true)) ∧
    (st.prepared = false → ∃ idl, dataPrepare prep st ids =
      Except.ok (⟨st.n_subjects, prep st.subjects idl, true⟩, false)) := by
  cases ids with
  | ofInt i =>
    exact ⟨fun hp => by simp [dataPrepare, hp],
      fun hp => ⟨[i], by simp [dataPrepare, hp]⟩⟩
  | ofList l =>
    exact ⟨fun hp => by simp [dataPrepare, hp],
      fun hp => ⟨l, by simp [dataPrepare, hp]⟩⟩
  | ofString s =>
    have hs : s = "all" := by simpa [idsKnown] using hv
    subst hs
    exact ⟨fun hp => by simp [dataPrepare, hp],
      fun hp => ⟨(List.range st.n_subjects).map (fun i => (i : ℤ) + 1),
        by simp [dataPrepare, hp]⟩⟩

/-- Witness for the C10 theorem: a prepared two-element state is left
unchanged by a second `prepare` call with integer ids. -/
theorem data_prepare_gating_witness :
    idsKnown (IdsArg.ofInt 1) = true ∧
    dataPrepare (fun s _ => s) ⟨1, [1], true⟩ (IdsArg.ofInt 1) =
      Except.ok ((⟨1, [1], true⟩ : DataState), true) :=
  ⟨rfl, (data_prepare_gating (fun s _ => s) ⟨1, [1], true⟩ (IdsArg.ofInt 1) rfl).1 rfl⟩

end VradModel
